import Mathlib

/-!
Shallow embedding of the configuration-document synchronization engine of
`mk8` (file `mk8/integrations/kubeconfig.py`), of its readiness pollers
(`mk8/integrations/kind_client.py`, `mk8/business/crossplane_installer.py`)
and of the resilient teardown sequences
(`mk8/business/crossplane_installer.py`, `mk8/business/bootstrap_manager.py`),
together with theorems settling the specification claims about them.

Modelling conventions:
* Python dictionaries parsed from the kubeconfig YAML file become Lean
  structures; opaque payload maps become association lists
  `List (String × String)`.
* File contents are identified with their parsed value (the round-trip of
  the YAML serializer is not at issue in any claim); I/O failures that a
  claim talks about are injected through explicit behaviour flags.
* Machine time is modelled by natural-number seconds; `time.sleep(5)`
  advances the clock by `5`.
-/

namespace Mk8

/-- A `clusters` list element: `{name: ..., cluster: <payload>}`. -/
structure ClusterEntry where
  name : String
  cluster : List (String × String)
  deriving DecidableEq, Repr

/-- A `contexts` list element: `{name: ..., context: {cluster: ..., user: ...}}`. -/
structure ContextEntry where
  name : String
  cluster : String
  user : String
  deriving DecidableEq, Repr

/-- A `users` list element: `{name: ..., user: <payload>}`. -/
structure UserEntry where
  name : String
  user : List (String × String)
  deriving DecidableEq, Repr

/-- A kubeconfig document as held in memory after `_read_config` (all five
structural fields present).  `current-context: null` and an absent
`current-context` key behave identically through every operation modelled
here (`config.get("current-context")`), so both are `none`. -/
structure Config where
  apiVersion : String
  kind : String
  clusters : List ClusterEntry
  contexts : List ContextEntry
  users : List UserEntry
  currentContext : Option String
  preferences : List (String × String)
  deriving DecidableEq, Repr

/-- The parse of a present kubeconfig file before field validation: each
top-level field may be absent. -/
structure RawConfig where
  apiVersion : Option String
  kind : Option String
  clusters : Option (List ClusterEntry)
  contexts : Option (List ContextEntry)
  users : Option (List UserEntry)
  currentContext : Option String
  preferences : List (String × String)
  deriving DecidableEq, Repr

/-- Outcome of `yaml.safe_load` on a present file: a YAML syntax error, a
parse that is not a mapping (`not isinstance(config, dict)`), or a mapping. -/
inductive YamlParse where
  | parseError
  | notDict
  | dict (raw : RawConfig)
  deriving DecidableEq, Repr

/-- The kubeconfig file state the loader sees: `none` when the path does not
exist, otherwise the parse outcome of its content. -/
def FileState : Type := Option YamlParse

/-- The distinct `KubeconfigError` messages raised by `kubeconfig.py`,
as an inductive error type. -/
inductive KubeconfigErr where
  | invalidStructure
  | invalidYaml
  | missingField (field : String)
  | clusterNotFound (name : String)
  | writeFailed
  deriving DecidableEq, Repr

/-- The empty config structure `_read_config` returns when the file is
absent (`kubeconfig.py` lines 71–81). -/
def emptyConfig : Config :=
  { apiVersion := "v1"
    kind := "Config"
    clusters := []
    contexts := []
    users := []
    currentContext := none
    preferences := [] }

/-- `KubeconfigManager._read_config` (`kubeconfig.py` lines 61–127):
absent file yields `emptyConfig`; a YAML error or a non-mapping parse is an
error; a mapping missing one of the five required fields
(`apiVersion`, `kind`, `clusters`, `contexts`, `users`, checked in that
order) is an error; otherwise the parsed document is returned. -/
def read_config (fs : FileState) : Except KubeconfigErr Config :=
  match fs with
  | none => .ok emptyConfig
  | some .parseError => .error .invalidYaml
  | some .notDict => .error .invalidStructure
  | some (.dict raw) =>
    match raw.apiVersion with
    | none => .error (.missingField "apiVersion")
    | some av =>
    match raw.kind with
    | none => .error (.missingField "kind")
    | some k =>
    match raw.clusters with
    | none => .error (.missingField "clusters")
    | some cs =>
    match raw.contexts with
    | none => .error (.missingField "contexts")
    | some cts =>
    match raw.users with
    | none => .error (.missingField "users")
    | some us =>
      .ok { apiVersion := av, kind := k, clusters := cs, contexts := cts,
            users := us, currentContext := raw.currentContext,
            preferences := raw.preferences }

/-- A present file is corrupt when it is unparsable (YAML error or not a
mapping) or a mapping missing one of the five required structural fields. -/
def corruptFile : YamlParse → Prop
  | .parseError => True
  | .notDict => True
  | .dict raw =>
      raw.apiVersion = none ∨ raw.kind = none ∨ raw.clusters = none ∨
      raw.contexts = none ∨ raw.users = none

instance : DecidablePred corruptFile := by
  intro y
  unfold corruptFile
  cases y <;> infer_instance

/-- `KubeconfigManager.get_current_context` (lines 412–423): any load
failure is swallowed and reported as `None`. -/
def get_current_context (fs : FileState) : Option String :=
  match read_config fs with
  | .ok config => config.currentContext
  | .error _ => none

/-- `KubeconfigManager.list_clusters` (lines 458–469): any load failure is
swallowed and reported as the empty list. -/
def list_clusters (fs : FileState) : List String :=
  match read_config fs with
  | .ok config => config.clusters.map (fun c => c.name)
  | .error _ => []

/-- `KubeconfigManager.cluster_exists` (lines 471–485): any load failure is
swallowed and reported as `False`. -/
def cluster_exists (fs : FileState) (cluster_name : String) : Bool :=
  match read_config fs with
  | .ok config => config.clusters.any (fun c => c.name == cluster_name)
  | .error _ => false

/-- The Python f-string `f"{desired_name}-{suffix}"` probed by
`_resolve_naming_conflict`. -/
def probeName (desired_name : String) (suffix : Nat) : String :=
  desired_name ++ "-" ++ Nat.repr suffix

/-- The `while f"{desired_name}-{suffix}" in existing_names: suffix += 1`
loop of `_resolve_naming_conflict` (lines 325–330), with explicit fuel; the
fuel `existing_names.length + 1` used below is always sufficient (the
probed names are pairwise distinct, see `resolve_naming_conflict_spec`). -/
def resolveLoop (desired_name : String) (existing_names : List String) :
    Nat → Nat → String
  | 0, suffix => probeName desired_name suffix
  | fuel + 1, suffix =>
      if probeName desired_name suffix ∈ existing_names then
        resolveLoop desired_name existing_names fuel (suffix + 1)
      else probeName desired_name suffix

/-- `KubeconfigManager._resolve_naming_conflict` (lines 309–330). -/
def resolve_naming_conflict (desired_name : String)
    (existing_names : List String) : String :=
  if desired_name ∈ existing_names then
    resolveLoop desired_name existing_names (existing_names.length + 1) 2
  else desired_name

/-- Caller-visible outcome of one `add_cluster` call: the document handed to
`_write_config`, the updated `_previous_context` slot, and the Python return
value (the function body has no `return` statement, so it is `None`). -/
structure AddResult where
  config : Config
  previousContext : Option String
  returned : Option String
  deriving DecidableEq, Repr

/-- `KubeconfigManager.add_cluster` (lines 239–307), given the document
`config` that `_read_config` loaded and the current `_previous_context`
slot.  `_read_config` guarantees the `clusters`/`contexts`/`users` keys
exist, so the defensive `if "clusters" not in config` branches are dead. -/
def add_cluster (config : Config) (previous : Option String)
    (cluster_name : String) (cluster_config : List (String × String))
    (set_current : Bool) : AddResult :=
  let previous' := if set_current then config.currentContext else previous
  let final_cluster_name :=
    resolve_naming_conflict cluster_name (config.clusters.map (fun c => c.name))
  let config' : Config :=
    { config with
      clusters := config.clusters ++
        [{ name := final_cluster_name, cluster := cluster_config }]
      contexts := config.contexts ++
        [{ name := final_cluster_name, cluster := final_cluster_name,
           user := final_cluster_name }]
      users := config.users ++ [{ name := final_cluster_name, user := [] }]
      currentContext :=
        if set_current then some final_cluster_name else config.currentContext }
  { config := config', previousContext := previous', returned := none }

/-- Python truthiness of the `_previous_context` slot (`None` and the empty
string are falsy). -/
def pyTruthy : Option String → Bool
  | none => false
  | some s => !(s == "")

/-- `config["contexts"][0]["name"]` guarded by `elif config.get("contexts")`:
the name of the first remaining context, if any. -/
def firstContextName : List ContextEntry → Option String
  | [] => none
  | c :: _ => some c.name

/-- `KubeconfigManager.remove_cluster` (lines 332–410), as a transform of
the loaded document; the result is the document handed to `_write_config`.
In the `restore_previous_context and self._previous_context` branch the slot
is `some p` with `p ≠ ""`, so `previous.getD ""` is exactly the stored
string the code compares and assigns. -/
def remove_cluster (config : Config) (previous : Option String)
    (cluster_name : String) (restore_previous_context : Bool) :
    Except KubeconfigErr Config :=
  if config.clusters.any (fun c => c.name == cluster_name) then
    let clusters' := config.clusters.filter (fun c => !(c.name == cluster_name))
    let contexts' := config.contexts.filter (fun c => !(c.name == cluster_name))
    let users' := config.users.filter (fun u => !(u.name == cluster_name))
    let current' :=
      if config.currentContext == some cluster_name then
        if restore_previous_context && pyTruthy previous then
          if contexts'.any (fun c => c.name == previous.getD "") then previous
          else firstContextName contexts'
        else firstContextName contexts'
      else config.currentContext
    .ok { config with
          clusters := clusters'
          contexts := contexts'
          users := users'
          currentContext := current' }
  else
    .error (.clusterNotFound cluster_name)

/-- The state a `KubeconfigManager` instance owns between calls: the on-disk
document (persist assumed to succeed; its failure modes are modelled by
`write_config` below) and the instance `_previous_context` slot. -/
structure Store where
  doc : Config
  previousContext : Option String
  deriving DecidableEq, Repr

/-- One full `remove_cluster` call at the store level: load, mutate,
persist; on error the on-disk document and the slot are unchanged. -/
def runRemoveCluster (st : Store) (cluster_name : String)
    (restore_previous_context : Bool) : Except KubeconfigErr Unit × Store :=
  match remove_cluster st.doc st.previousContext cluster_name
      restore_previous_context with
  | .ok d => (.ok (), { st with doc := d })
  | .error e => (.error e, st)

/-- Modelled from the spec's wording of `removeClusterEntry` step 3 and the
§8 "Context restoration" property: restore the remembered previous context
when `restorePrevious` holds and the memory holds a (non-empty, per §8
"invalid/empty memory") name still present among the remaining contexts;
otherwise the first remaining context in list order; otherwise null. -/
def specSelectNewCurrent (restorePrevious : Bool) (memory : Option String)
    (remaining : List ContextEntry) : Option String :=
  match memory with
  | some p =>
      if restorePrevious && !(p == "") && remaining.any (fun c => c.name == p)
      then some p
      else (remaining.head?).map (fun c => c.name)
  | none => (remaining.head?).map (fun c => c.name)

/-- Numeric value of a decimal digit character. -/
def decDigitVal (c : Char) : Nat := c.toNat - 48

/-- Big-endian decimal evaluation of a digit list, from an accumulator. -/
def decodeDigitsFrom (a : Nat) (l : List Char) : Nat :=
  l.foldl (fun acc c => 10 * acc + decDigitVal c) a

/-- The sequence of names `add_cluster` considers for a requested name:
the name itself, then `name-2`, `name-3`, … -/
def candidateName (desired_name : String) : Nat → String
  | 0 => desired_name
  | k + 1 => probeName desired_name (k + 2)

/-- Failure-injection flags for the three `_write_config` steps named by the
atomicity claim: `yaml.safe_dump` of the candidate document, writing the
temporary file, and the `yaml.safe_load` round-trip check of the temporary
file.  The remaining steps (mkdir, backup copy, rename, chmod) are taken as
succeeding; the claim quantifies only over these three failures. -/
structure IOBehavior where
  serializeOk : Bool
  writeTmpOk : Bool
  reparseOk : Bool
  deriving DecidableEq, Repr

/-- All steps succeed. -/
def ioOk : IOBehavior :=
  { serializeOk := true, writeTmpOk := true, reparseOk := true }

/-- File-system state around one kubeconfig path: the destination file and
the sibling `.tmp` file (contents identified with their parsed document),
and the backups directory, each backup file abstracted to its modification
time (`shutil.copy2` preserves the source's mtime, and the backup filename
is determined by a second-resolution timestamp). -/
structure FS where
  dest : Option Config
  tmp : Option Config
  backups : List Nat
  deriving DecidableEq, Repr

/-- `KubeconfigManager._create_backup` (lines 183–215): copy the current
destination file into the backups directory under a timestamp-derived name.
Two backups taken within the same second collide on the same filename and
the copy overwrites, leaving the set of backup files unchanged. -/
def create_backup (backups : List Nat) (mtime : Nat) : List Nat :=
  if mtime ∈ backups then backups else backups ++ [mtime]

/-- `KubeconfigManager._cleanup_old_backups` (lines 217–237): sort the
backup files by modification time newest first and delete those from index
`max_backups` on; the directory afterwards holds the surviving files. -/
def cleanup_old_backups (backups : List Nat) (max_backups : Nat) :
    List Nat :=
  let removed := (backups.insertionSort (fun a b => a ≥ b)).drop max_backups
  backups.filter (fun m => decide (¬ m ∈ removed))

/-- `KubeconfigManager._write_config` (lines 129–181) with the three
failure-injectable steps, returning the call's outcome and the resulting
file-system state.  `mtime` is the modification time the backup copy
inherits.  The `finally` block removes the temporary file whenever it still
exists, so `tmp` is `none` on every exit path (after a successful rename
the temporary path no longer exists and the destination holds the new
document). -/
def write_config (config : Config) (b : IOBehavior) (mtime : Nat)
    (max_backups : Nat) (fs : FS) : Except KubeconfigErr Unit × FS :=
  let backups1 := if fs.dest.isSome then create_backup fs.backups mtime
                  else fs.backups
  if b.serializeOk = false then
    (.error .writeFailed,
     { dest := fs.dest, tmp := none, backups := backups1 })
  else if b.writeTmpOk = false then
    (.error .writeFailed,
     { dest := fs.dest, tmp := none, backups := backups1 })
  else if b.reparseOk = false then
    (.error .writeFailed,
     { dest := fs.dest, tmp := none, backups := backups1 })
  else
    (.ok (),
     { dest := some config, tmp := none,
       backups := cleanup_old_backups backups1 max_backups })

/-- A sequence of successful `_write_config` calls, one per backup
modification time in the list. -/
def write_seq (config : Config) (max_backups : Nat) :
    List Nat → FS → FS
  | [], fs => fs
  | t :: ts, fs =>
      write_seq config max_backups ts
        (write_config config ioOk t max_backups fs).2

/-- Exit of a readiness poll loop: `ready i` means the call returned right
after check invocation `i` (elapsed `5 * i` seconds: `i` sleeps happened,
all before that invocation, none after); `timedOut i` means the loop
condition failed before invocation `i` would have run (elapsed `5 * i`
seconds) and the caller raises. -/
inductive PollOutcome where
  | ready (i : Nat)
  | timedOut (i : Nat)
  deriving DecidableEq, Repr

/-- Elapsed whole seconds at the poll exit (checks are instantaneous,
`time.sleep(5)` accounts for all elapsed time). -/
def elapsedSeconds : PollOutcome → Nat
  | .ready i => 5 * i
  | .timedOut i => 5 * i

/-- The `start_time = time.time(); while time.time() - start_time < timeout:
...; time.sleep(5)` loop shared verbatim by `KindClient.wait_for_ready`
(`kind_client.py` lines 352–395) and
`CrossplaneInstaller._wait_for_crossplane_ready`
(`crossplane_installer.py` lines 409–417): invocation `i` happens at
elapsed `5 * i` seconds; a ready check returns immediately, otherwise the
loop sleeps 5 seconds and retries; when the elapsed time reaches `timeout`
the loop exits and the caller raises.  Fuel `timeout / 5 + 1` (used below)
is exactly enough: when it runs out the loop condition is false anyway. -/
def pollLoop (check : Nat → Bool) (timeout : Nat) : Nat → Nat → PollOutcome
  | 0, i => .timedOut i
  | fuel + 1, i =>
      if 5 * i < timeout then
        if check i then .ready i
        else pollLoop check timeout fuel (i + 1)
      else .timedOut i

/-- `KindClient.wait_for_ready`: the per-invocation pair abstracts
`(result.returncode == 0 and "Ready" in result.stdout, result.stdout)`;
a raised exception inside the loop body is swallowed (`except ... pass`)
and behaves as a not-ready invocation. -/
def wait_for_ready (check : Nat → Bool × String) (timeout : Nat) :
    PollOutcome :=
  pollLoop (fun i => (check i).1) timeout (timeout / 5 + 1) 0

/-- The fixed message of the `KindError` raised on timeout
(`kind_client.py` lines 388–395); it names only the timeout value. -/
def kindTimeoutMessage (timeout : Nat) : String :=
  "Cluster did not become ready within " ++ Nat.repr timeout ++ " seconds"

/-- Caller-visible result of `KindClient.wait_for_ready`: `None` on
success, a raised `KindError` carrying the fixed message on timeout. -/
def wait_for_ready_result (check : Nat → Bool × String) (timeout : Nat) :
    Except String Unit :=
  match wait_for_ready check timeout with
  | .ready _ => .ok ()
  | .timedOut _ => .error (kindTimeoutMessage timeout)

/-- `if pods and all(p.get("ready") for p in pods)`
(`crossplane_installer.py` line 414): the pod list is non-empty and every
pod is ready. -/
def crossplane_pods_ready (pods : List Bool) : Bool :=
  !pods.isEmpty && pods.all (fun p => p)

/-- `CrossplaneInstaller._wait_for_crossplane_ready`: `pods i` is the pod
readiness listing observed by invocation `i`. -/
def wait_for_crossplane_ready (pods : Nat → List Bool) (timeout : Nat) :
    PollOutcome :=
  pollLoop (fun i => crossplane_pods_ready (pods i)) timeout
    (timeout / 5 + 1) 0

/-- The fixed message of the `CommandError` raised on timeout
(`crossplane_installer.py` line 417). -/
def crossplaneTimeoutMessage : String :=
  "Timeout waiting for Crossplane pods to be ready"

/-- Caller-visible result of `_wait_for_crossplane_ready`. -/
def wait_for_crossplane_ready_result (pods : Nat → List Bool)
    (timeout : Nat) : Except String Unit :=
  match wait_for_crossplane_ready pods timeout with
  | .ready _ => .ok ()
  | .timedOut _ => .error crossplaneTimeoutMessage

/-- The four fallible actions `CrossplaneInstaller.uninstall_crossplane`
invokes, as their outcomes (an exception rendered as its message). -/
structure UninstallEnv where
  deleteProviderConfig : Except String Unit
  deleteProvider : Except String Unit
  helmUninstall : Except String Unit
  deleteNamespace : Except String Unit

/-- Observable record of a teardown run: `executed` logs each step's label
at the moment its action runs; `errors` is the function's `errors` list.
The modelled functions return `None` and never re-raise a step failure:
their whole observable behaviour is this record. -/
structure TeardownRun where
  executed : List String
  errors : List String
  deriving DecidableEq, Repr

/-- One `try: <action> except Exception as e: errors.append(f"{label}: {e}")`
block, the shape of each step of `uninstall_crossplane`
(`crossplane_installer.py` lines 210–264). -/
def runStep (label : String) (outcome : Except String Unit)
    (acc : TeardownRun) : TeardownRun :=
  { executed := acc.executed ++ [label]
    errors := acc.errors ++ (match outcome with
      | .ok _ => []
      | .error e => [label ++ ": " ++ e]) }

/-- `CrossplaneInstaller.uninstall_crossplane` (lines 210–264): four
try/except blocks in order, error labels as in the source. -/
def uninstall_crossplane (env : UninstallEnv) : TeardownRun :=
  runStep "Namespace deletion" env.deleteNamespace
    (runStep "Helm uninstall" env.helmUninstall
      (runStep "Provider deletion" env.deleteProvider
        (runStep "ProviderConfig deletion" env.deleteProviderConfig
          { executed := [], errors := [] })))

/-- The fallible collaborators of `BootstrapManager.delete_cluster`
(`bootstrap_manager.py` lines 143–201): the kind cluster deletion, the
kubeconfig membership probe, and the kubeconfig entry removal. -/
structure DeleteClusterEnv where
  kindDelete : Except String Unit
  kubeconfigHasCluster : Bool
  removeFromKubeconfig : Except String Unit

/-- Observable record of one `delete_cluster` cleanup run: `executed` logs
each step's label when its try block runs; `cleanedUp` is the function's
`cleaned_up` list (appended only after a step's action succeeded);
`errors` is its `errors` list. -/
structure DeleteClusterRun where
  executed : List String
  cleanedUp : List String
  errors : List String
  deriving DecidableEq, Repr

/-- The two try/except cleanup blocks of `BootstrapManager.delete_cluster`
(lines 169–191): delete the kind cluster, then remove the kubeconfig entry
if present; each failure is appended to `errors` and the next block still
runs; nothing is ever re-raised. -/
def delete_cluster_steps (env : DeleteClusterEnv) : DeleteClusterRun :=
  let r1 : DeleteClusterRun :=
    match env.kindDelete with
    | .ok _ =>
        { executed := ["kind cluster"], cleanedUp := ["kind cluster"],
          errors := [] }
    | .error e =>
        { executed := ["kind cluster"], cleanedUp := [],
          errors := ["Failed to delete kind cluster: " ++ e] }
  if env.kubeconfigHasCluster then
    match env.removeFromKubeconfig with
    | .ok _ =>
        { r1 with executed := r1.executed ++ ["kubeconfig context"]
                  cleanedUp := r1.cleanedUp ++ ["kubeconfig context"] }
    | .error e =>
        { r1 with executed := r1.executed ++ ["kubeconfig context"]
                  errors := r1.errors ++
                    ["Failed to clean up kubeconfig: " ++ e] }
  else
    { r1 with executed := r1.executed ++ ["kubeconfig context"] }

/-- The concrete cleanup run [kind deletion raises "network error",
kubeconfig entry present, kubeconfig removal succeeds]. -/
def kindFailEnv : DeleteClusterEnv :=
  { kindDelete := .error "network error"
    kubeconfigHasCluster := true
    removeFromKubeconfig := .ok () }

end Mk8

namespace Mk8

/-- C9: `load` returns the fresh default document when the file is absent,
and fails exactly when the file is present but unparsable or missing one of
the five required structural fields. -/
theorem read_config_default_and_corrupt :
    (read_config none = .ok emptyConfig ∧
      emptyConfig.clusters = [] ∧ emptyConfig.contexts = [] ∧
      emptyConfig.users = [] ∧ emptyConfig.currentContext = none) ∧
    ∀ y : YamlParse,
      (∃ e, read_config (some y) = .error e) ↔ corruptFile y := by
  refine ⟨⟨rfl, rfl, rfl, rfl, rfl⟩, ?_⟩
  intro y
  cases y with
  | parseError => exact ⟨fun _ => trivial, fun _ => ⟨.invalidYaml, rfl⟩⟩
  | notDict => exact ⟨fun _ => trivial, fun _ => ⟨.invalidStructure, rfl⟩⟩
  | dict raw =>
    obtain ⟨av, k, cs, cts, us, cur, prefs⟩ := raw
    constructor
    · rintro ⟨e, he⟩
      cases av <;> cases k <;> cases cs <;> cases cts <;> cases us <;>
        simp_all [read_config, corruptFile]
    · intro hcor
      cases av <;> cases k <;> cases cs <;> cases cts <;> cases us <;>
        simp_all [read_config, corruptFile]

/-- C10: the read helpers never raise: whenever the underlying load fails
they return `none` / `[]` / `false`, the same answers an absent file (fresh
default document: no current context, no clusters) produces, so these
operations cannot distinguish the two states. -/
theorem read_helpers_swallow_errors (y : YamlParse) (name : String)
    (h : corruptFile y) :
    get_current_context (some y) = none ∧
    list_clusters (some y) = [] ∧
    cluster_exists (some y) name = false ∧
    get_current_context (some y) = get_current_context none ∧
    list_clusters (some y) = list_clusters none ∧
    cluster_exists (some y) name = cluster_exists none name := by
  have herr : ∃ e, read_config (some y) = .error e :=
    (read_config_default_and_corrupt.2 y).mpr h
  obtain ⟨e, he⟩ := herr
  simp only [get_current_context, list_clusters, cluster_exists, he]
  simp [read_config, emptyConfig]

/-- Digits prepended by `Nat.toDigitsCore` land in front of the
accumulator. -/
theorem toDigitsCore_acc_append (b : Nat) :
    ∀ (f n : Nat) (acc : List Char),
      Nat.toDigitsCore b f n acc = Nat.toDigitsCore b f n [] ++ acc := by
  intro f
  induction f with
  | zero => intro n acc; simp [Nat.toDigitsCore]
  | succ f ih =>
    intro n acc
    simp only [Nat.toDigitsCore]
    by_cases h : n / b = 0
    · simp [h]
    · simp only [if_neg h]
      rw [ih (n / b) (Nat.digitChar (n % b) :: acc),
        ih (n / b) [Nat.digitChar (n % b)]]
      simp

/-- Decimal digit characters decode to their value. -/
theorem decDigitVal_digitChar : ∀ d : Nat, d < 10 →
    decDigitVal (Nat.digitChar d) = d := by decide

/-- With sufficient fuel, `Nat.toDigitsCore` base 10 produces a digit list
that decodes back to its input. -/
theorem decode_toDigitsCore : ∀ n : Nat, ∀ f : Nat, n < f →
    decodeDigitsFrom 0 (Nat.toDigitsCore 10 f n []) = n := by
  intro n
  induction n using Nat.strong_induction_on with
  | _ n ih =>
    intro f hf
    match f, hf with
    | f + 1, _ =>
      simp only [Nat.toDigitsCore]
      by_cases h : n / 10 = 0
      · have hn : n < 10 := by
          rwa [Nat.div_eq_zero_iff (by omega)] at h
        simp only [h, if_pos]
        simp only [decodeDigitsFrom, List.foldl_cons, List.foldl_nil]
        rw [Nat.mod_eq_of_lt hn]
        rw [decDigitVal_digitChar n hn]
        omega
      · have hn0 : 0 < n := by
          rcases Nat.eq_zero_or_pos n with h0 | h0
          · subst h0; simp at h
          · exact h0
        have hlt : n / 10 < n := Nat.div_lt_self hn0 (by omega)
        have hltf : n / 10 < f := by omega
        simp only [if_neg h]
        rw [toDigitsCore_acc_append]
        simp only [decodeDigitsFrom, List.foldl_append, List.foldl_cons,
          List.foldl_nil]
        have hrec := ih (n / 10) hlt f hltf
        simp only [decodeDigitsFrom] at hrec
        rw [hrec, decDigitVal_digitChar (n % 10) (Nat.mod_lt n (by omega))]
        omega

/-- The decimal string representation of natural numbers is injective. -/
theorem nat_repr_injective : Function.Injective Nat.repr := by
  intro m n h
  have h2 : Nat.toDigits 10 m = Nat.toDigits 10 n := congrArg String.data h
  have hm := decode_toDigitsCore m (m + 1) (Nat.lt_succ_self m)
  have hn := decode_toDigitsCore n (n + 1) (Nat.lt_succ_self n)
  unfold Nat.toDigits at h2
  rw [h2] at hm
  omega

/-- Probed conflict names with the same stem are injective in the suffix. -/
theorem probeName_inj (d : String) {a b : Nat}
    (h : probeName d a = probeName d b) : a = b := by
  have h2 := congrArg String.data h
  simp only [probeName, String.data_append, List.append_assoc,
    List.append_cancel_left_eq] at h2
  have h3 : Nat.repr a = Nat.repr b := String.ext h2
  exact nat_repr_injective h3

/-- Among `existing_names.length + 1` consecutive probes at least one name
is unused (the probes are pairwise distinct). -/
theorem exists_free_probe (d : String) (ex : List String) :
    ∃ j, j ≤ ex.length ∧ probeName d (2 + j) ∉ ex := by
  by_contra hall
  push_neg at hall
  have hinj : Function.Injective (fun j : Nat => probeName d (2 + j)) := by
    intro a b hab
    have := probeName_inj d hab
    omega
  have hnodup : ((List.range (ex.length + 1)).map
      (fun j => probeName d (2 + j))).Nodup :=
    (List.nodup_range _).map hinj
  have h1 : ((List.range (ex.length + 1)).map
      (fun j => probeName d (2 + j))).toFinset.card = ex.length + 1 := by
    rw [List.toFinset_card_of_nodup hnodup]
    simp
  have h2 : ((List.range (ex.length + 1)).map
      (fun j => probeName d (2 + j))).toFinset ⊆ ex.toFinset := by
    intro x hx
    rw [List.mem_toFinset] at hx ⊢
    simp only [List.mem_map, List.mem_range] at hx
    obtain ⟨j, hj, rfl⟩ := hx
    exact hall j (by omega)
  have h3 := Finset.card_le_card h2
  have h4 := List.toFinset_card_le (l := ex)
  omega

/-- The suffix-probing loop returns the first unused probe, provided some
probe within its fuel is unused. -/
theorem resolveLoop_spec (d : String) (ex : List String) :
    ∀ (fuel s : Nat), (∃ j, j < fuel ∧ probeName d (s + j) ∉ ex) →
      ∃ k, resolveLoop d ex fuel s = probeName d (s + k) ∧
        probeName d (s + k) ∉ ex ∧ ∀ j, j < k → probeName d (s + j) ∈ ex := by
  intro fuel
  induction fuel with
  | zero =>
    rintro s ⟨j, hj, _⟩
    omega
  | succ f ih =>
    rintro s ⟨j, hj, hfree⟩
    by_cases hmem : probeName d s ∈ ex
    · have hj0 : j ≠ 0 := by
        rintro rfl
        simp only [Nat.add_zero] at hfree
        exact hfree hmem
      have hshift : ∃ j2, j2 < f ∧ probeName d ((s + 1) + j2) ∉ ex := by
        refine ⟨j - 1, by omega, ?_⟩
        have heq : (s + 1) + (j - 1) = s + j := by omega
        rw [heq]
        exact hfree
      obtain ⟨k, hk1, hk2, hk3⟩ := ih (s + 1) hshift
      refine ⟨k + 1, ?_, ?_, ?_⟩
      · simp only [resolveLoop, if_pos hmem]
        rw [hk1]
        have heq : (s + 1) + k = s + (k + 1) := by omega
        rw [heq]
      · have heq : s + (k + 1) = (s + 1) + k := by omega
        rw [heq]
        exact hk2
      · intro j2 hj2
        cases j2 with
        | zero => simpa using hmem
        | succ j3 =>
          have heq : s + (j3 + 1) = (s + 1) + j3 := by omega
          rw [heq]
          exact hk3 j3 (by omega)
    · refine ⟨0, ?_, ?_, ?_⟩
      · simp [resolveLoop, if_neg hmem]
      · simpa using hmem
      · intro j2 hj2
        omega

/-- C8: naming-conflict resolution uses the requested name when unused,
otherwise the first unused of `name-2`, `name-3`, …; adding `"demo"` over an
existing `"demo"` yields `"demo-2"`, and adding again yields `"demo-3"`. -/
theorem resolve_naming_conflict_spec :
    (∀ (d : String) (ex : List String),
        ∃ k, resolve_naming_conflict d ex = candidateName d k ∧
          candidateName d k ∉ ex ∧ ∀ j, j < k → candidateName d j ∈ ex) ∧
    ((add_cluster { emptyConfig with
          clusters := [{ name := "demo", cluster := [] }] }
        none "demo" [] false).config.clusters.map (fun c => c.name))
      = ["demo", "demo-2"] ∧
    ((add_cluster (add_cluster { emptyConfig with
            clusters := [{ name := "demo", cluster := [] }] }
          none "demo" [] false).config
        none "demo" [] false).config.clusters.map (fun c => c.name))
      = ["demo", "demo-2", "demo-3"] := by
  refine ⟨?_, by decide, by decide⟩
  intro d ex
  unfold resolve_naming_conflict
  by_cases hd : d ∈ ex
  · simp only [if_pos hd]
    obtain ⟨j, hj, hfree⟩ := exists_free_probe d ex
    obtain ⟨k, hk1, hk2, hk3⟩ :=
      resolveLoop_spec d ex (ex.length + 1) 2 ⟨j, by omega, hfree⟩
    refine ⟨k + 1, ?_, ?_, ?_⟩
    · rw [hk1]
      simp only [candidateName]
      have heq : 2 + k = k + 2 := by omega
      rw [heq]
    · have heq : k + 2 = 2 + k := by omega
      simp only [candidateName, heq]
      exact hk2
    · intro j2 hj2
      cases j2 with
      | zero => exact hd
      | succ j3 =>
        simp only [candidateName]
        have heq : j3 + 2 = 2 + j3 := by omega
        rw [heq]
        exact hk3 j3 (by omega)
  · simp only [if_neg hd]
    refine ⟨0, rfl, hd, ?_⟩
    intro j hj
    omega

/-- Witness for C10 at a concrete corrupt file state. -/
theorem read_helpers_swallow_errors_witness :
    get_current_context (some .parseError) = none ∧
    list_clusters (some .parseError) = [] ∧
    cluster_exists (some .parseError) "demo" = false ∧
    get_current_context (some .parseError) = get_current_context none ∧
    list_clusters (some .parseError) = list_clusters none ∧
    cluster_exists (some .parseError) "demo" = cluster_exists none "demo" :=
  read_helpers_swallow_errors .parseError "demo" trivial

end Mk8

namespace Mk8

/-- C3 (amended): a successful `add_cluster` call returns `None` to its
caller; the resolved name is applied to the appended cluster/context/user
entries and, when requested, to the current context, but it is not
returned. -/
theorem add_cluster_result (config : Config) (previous : Option String)
    (cluster_name : String) (cluster_config : List (String × String))
    (set_current : Bool) :
    (add_cluster config previous cluster_name cluster_config
        set_current).returned = none ∧
    (add_cluster config previous cluster_name cluster_config
        set_current).config.clusters = config.clusters ++
      [{ name := resolve_naming_conflict cluster_name
            (config.clusters.map (fun c => c.name)),
         cluster := cluster_config }] ∧
    (add_cluster config previous cluster_name cluster_config
        set_current).config.contexts = config.contexts ++
      [{ name := resolve_naming_conflict cluster_name
            (config.clusters.map (fun c => c.name)),
         cluster := resolve_naming_conflict cluster_name
            (config.clusters.map (fun c => c.name)),
         user := resolve_naming_conflict cluster_name
            (config.clusters.map (fun c => c.name)) }] ∧
    (add_cluster config previous cluster_name cluster_config
        set_current).config.users = config.users ++
      [{ name := resolve_naming_conflict cluster_name
            (config.clusters.map (fun c => c.name)),
         user := [] }] ∧
    (add_cluster config previous cluster_name cluster_config
        set_current).config.currentContext =
      (if set_current then
        some (resolve_naming_conflict cluster_name
          (config.clusters.map (fun c => c.name)))
      else config.currentContext) ∧
    (add_cluster config previous cluster_name cluster_config
        set_current).previousContext =
      (if set_current then config.currentContext else previous) :=
  ⟨rfl, rfl, rfl, rfl, rfl, rfl⟩

/-- C3 counterexample: adding `"demo"` to an empty document resolves the
name to `"demo"` (the new cluster entry carries it) and succeeds, yet the
call returns `None`, not the resolved name. -/
theorem add_cluster_no_return_counterexample :
    (add_cluster emptyConfig none "demo" [] true).config.clusters.map
        (fun c => c.name) = ["demo"] ∧
    (add_cluster emptyConfig none "demo" [] true).config.currentContext
      = some "demo" ∧
    (add_cluster emptyConfig none "demo" [] true).returned = none ∧
    (add_cluster emptyConfig none "demo" [] true).returned ≠ some "demo" := by
  decide

/-- C7: removing an existing cluster name removes exactly the cluster,
context and user entries carrying that name, leaves every differently-named
entry and the `apiVersion`, `kind` and `preferences` fields unchanged; an
unknown name fails with the not-found error and leaves the store
unchanged. -/
theorem remove_cluster_cascade (config : Config) (previous : Option String)
    (cluster_name : String) (restore : Bool) :
    (config.clusters.any (fun c => c.name == cluster_name) = false →
      runRemoveCluster { doc := config, previousContext := previous }
          cluster_name restore =
        (.error (.clusterNotFound cluster_name),
         { doc := config, previousContext := previous })) ∧
    (config.clusters.any (fun c => c.name == cluster_name) = true →
      ∃ config2,
        runRemoveCluster { doc := config, previousContext := previous }
            cluster_name restore =
          (.ok (), { doc := config2, previousContext := previous }) ∧
        config2.clusters =
          config.clusters.filter (fun c => !(c.name == cluster_name)) ∧
        config2.contexts =
          config.contexts.filter (fun c => !(c.name == cluster_name)) ∧
        config2.users =
          config.users.filter (fun u => !(u.name == cluster_name)) ∧
        config2.apiVersion = config.apiVersion ∧
        config2.kind = config.kind ∧
        config2.preferences = config.preferences) := by
  constructor
  · intro h
    simp [runRemoveCluster, remove_cluster, h]
  · intro h
    simp only [runRemoveCluster, remove_cluster, h, if_pos]
    exact ⟨_, rfl, rfl, rfl, rfl, rfl, rfl, rfl⟩

/-- Witness for C7: both branches at concrete inputs: removing `"demo"`
from a two-cluster document cascades, and removing a missing name fails
leaving the store unchanged. -/
theorem remove_cluster_cascade_witness :
    ({ apiVersion := "v1", kind := "Config"
       clusters := [{ name := "demo", cluster := [("server", "s1")] },
                    { name := "other", cluster := [("server", "s2")] }]
       contexts := [{ name := "demo", cluster := "demo", user := "demo" },
                    { name := "other", cluster := "other", user := "other" }]
       users := [{ name := "demo", user := [] },
                 { name := "other", user := [] }]
       currentContext := some "other"
       preferences := [] } : Config).clusters.any
        (fun c => c.name == "demo") = true ∧
    (∃ config2,
        runRemoveCluster
            { doc := { apiVersion := "v1", kind := "Config"
                       clusters := [{ name := "demo",
                                      cluster := [("server", "s1")] },
                                    { name := "other",
                                      cluster := [("server", "s2")] }]
                       contexts := [{ name := "demo", cluster := "demo",
                                      user := "demo" },
                                    { name := "other", cluster := "other",
                                      user := "other" }]
                       users := [{ name := "demo", user := [] },
                                 { name := "other", user := [] }]
                       currentContext := some "other"
                       preferences := [] },
              previousContext := none } "demo" true =
          (.ok (), { doc := config2, previousContext := none }) ∧
        config2.clusters = [{ name := "other",
                              cluster := [("server", "s2")] }] ∧
        config2.contexts = [{ name := "other", cluster := "other",
                              user := "other" }] ∧
        config2.users = [{ name := "other", user := [] }] ∧
        config2.apiVersion = "v1" ∧ config2.kind = "Config" ∧
        config2.preferences = []) ∧
    runRemoveCluster { doc := emptyConfig, previousContext := none }
        "ghost" true =
      (.error (.clusterNotFound "ghost"),
       { doc := emptyConfig, previousContext := none }) := by
  have h1 := (remove_cluster_cascade
    { apiVersion := "v1", kind := "Config"
      clusters := [{ name := "demo", cluster := [("server", "s1")] },
                   { name := "other", cluster := [("server", "s2")] }]
      contexts := [{ name := "demo", cluster := "demo", user := "demo" },
                   { name := "other", cluster := "other", user := "other" }]
      users := [{ name := "demo", user := [] },
                { name := "other", user := [] }]
      currentContext := some "other"
      preferences := [] } none "demo" true).2 (by decide)
  have h2 := (remove_cluster_cascade emptyConfig none "ghost" true).1
    (by decide)
  obtain ⟨config2, hrun, hcl, hctx, hus, hap, hk, hp⟩ := h1
  refine ⟨by decide, ⟨config2, hrun, ?_, ?_, ?_, hap, hk, hp⟩, h2⟩
  · rw [hcl]; decide
  · rw [hctx]; decide
  · rw [hus]; decide

end Mk8

namespace Mk8

/-- `firstContextName` is the name of the head of the remaining list. -/
theorem firstContextName_eq_head (l : List ContextEntry) :
    firstContextName l = (l.head?).map (fun c => c.name) := by
  cases l <;> rfl

/-- C2: when the removed cluster was the current context, the new current
context is exactly the spec's selection: the remembered previous context if
`restorePrevious` holds and the memory holds a (non-empty) name still
present among the remaining contexts, else the first remaining context in
list order, else null. -/
theorem remove_cluster_current_restoration (config : Config)
    (previous : Option String) (cluster_name : String) (restore : Bool)
    (hmem : config.clusters.any (fun c => c.name == cluster_name) = true)
    (hcur : config.currentContext = some cluster_name) :
    ∃ config2,
      remove_cluster config previous cluster_name restore = .ok config2 ∧
      config2.currentContext =
        specSelectNewCurrent restore previous
          (config.contexts.filter (fun c => !(c.name == cluster_name))) := by
  refine ⟨_, by simp only [remove_cluster, hmem, if_pos]; rfl, ?_⟩
  simp only [remove_cluster, hmem, if_pos, hcur]
  have hc : ((some cluster_name == some cluster_name) : Bool) = true := by
    simp
  simp only [hc, if_pos]
  cases previous with
  | none =>
    simp [pyTruthy, specSelectNewCurrent, firstContextName_eq_head]
  | some p =>
    by_cases hp : p = ""
    · subst hp
      simp [pyTruthy, specSelectNewCurrent, firstContextName_eq_head]
    · have hpt : pyTruthy (some p) = true := by
        simp [pyTruthy, hp]
      cases restore with
      | false =>
        simp [specSelectNewCurrent, firstContextName_eq_head, hp]
      | true =>
        simp only [hpt, Bool.and_true, if_pos, Option.getD_some,
          specSelectNewCurrent, Bool.true_and, hp]
        by_cases hany : (config.contexts.filter
            (fun c => !(c.name == cluster_name))).any
              (fun c => c.name == p) = true
        · simp [hany, hp]
        · simp only [Bool.not_eq_true] at hany
          simp [hany, firstContextName_eq_head, hp]

/-- Witness for C2 at a concrete input: removing current cluster `"demo"`
with empty memory selects the first remaining context `"other"`. -/
theorem remove_cluster_current_restoration_witness :
    ∃ config2,
      remove_cluster
          { apiVersion := "v1", kind := "Config"
            clusters := [{ name := "demo", cluster := [] },
                         { name := "other", cluster := [] }]
            contexts := [{ name := "demo", cluster := "demo", user := "demo" },
                         { name := "other", cluster := "other",
                           user := "other" }]
            users := [{ name := "demo", user := [] },
                      { name := "other", user := [] }]
            currentContext := some "demo"
            preferences := [] } none "demo" true = .ok config2 ∧
      config2.currentContext =
        specSelectNewCurrent true none
          (([{ name := "demo", cluster := "demo", user := "demo" },
             { name := "other", cluster := "other", user := "other" }] :
            List ContextEntry).filter (fun c => !(c.name == "demo"))) :=
  remove_cluster_current_restoration
    { apiVersion := "v1", kind := "Config"
      clusters := [{ name := "demo", cluster := [] },
                   { name := "other", cluster := [] }]
      contexts := [{ name := "demo", cluster := "demo", user := "demo" },
                   { name := "other", cluster := "other", user := "other" }]
      users := [{ name := "demo", user := [] },
                { name := "other", user := [] }]
      currentContext := some "demo"
      preferences := [] } none "demo" true (by decide) (by decide)

end Mk8

namespace Mk8

/-- C1: if serialization of the candidate document, the temp-file write, or
the post-write re-parse fails, `_write_config` raises the persistence
error, the destination file is exactly what it was before the call (an
absent file stays absent), and no temporary file remains on disk. -/
theorem write_config_atomic (config : Config) (b : IOBehavior) (mtime : Nat)
    (max_backups : Nat) (fs : FS)
    (hfail : b.serializeOk = false ∨ b.writeTmpOk = false ∨
      b.reparseOk = false) :
    (write_config config b mtime max_backups fs).1 = .error .writeFailed ∧
    (write_config config b mtime max_backups fs).2.dest = fs.dest ∧
    (write_config config b mtime max_backups fs).2.tmp = none := by
  obtain ⟨s, w, r⟩ := b
  cases s <;> cases w <;> cases r <;> simp_all [write_config]

/-- Witness for C1: a failing serialization over an existing destination
with a stale temp file: the destination keeps its old content and the temp
file is gone. -/
theorem write_config_atomic_witness :
    ((false : Bool) = false ∨ (true : Bool) = false ∨
      (true : Bool) = false) ∧
    (write_config emptyConfig
        { serializeOk := false, writeTmpOk := true, reparseOk := true }
        7 5 { dest := some emptyConfig, tmp := some emptyConfig,
              backups := [1, 2] }).1 = .error .writeFailed ∧
    (write_config emptyConfig
        { serializeOk := false, writeTmpOk := true, reparseOk := true }
        7 5 { dest := some emptyConfig, tmp := some emptyConfig,
              backups := [1, 2] }).2.dest = some emptyConfig ∧
    (write_config emptyConfig
        { serializeOk := false, writeTmpOk := true, reparseOk := true }
        7 5 { dest := some emptyConfig, tmp := some emptyConfig,
              backups := [1, 2] }).2.tmp = none :=
  ⟨Or.inl rfl,
    write_config_atomic emptyConfig
      { serializeOk := false, writeTmpOk := true, reparseOk := true }
      7 5 { dest := some emptyConfig, tmp := some emptyConfig,
            backups := [1, 2] } (Or.inl rfl)⟩

/-- A filter that rejects everything in the first `m` positions and keeps
everything after them computes `drop m`. -/
theorem filter_take_drop_split {α : Type} (p : α → Bool) (l : List α)
    (m : Nat) (h1 : ∀ x ∈ l.take m, p x = false)
    (h2 : ∀ x ∈ l.drop m, p x = true) :
    l.filter p = l.drop m := by
  conv_lhs => rw [← List.take_append_drop m l]
  rw [List.filter_append, List.filter_eq_nil_iff.mpr, List.filter_eq_self.mpr]
  · simp
  · intro a ha; simp [h2 a ha]
  · intro a ha hpa; simp [h1 a ha] at hpa

/-- On a strictly ascending backup list, pruning keeps exactly the newest
`max_backups` entries: the final segment of the list. -/
theorem cleanup_old_backups_sorted (l : List Nat) (N : Nat)
    (h : l.Pairwise (· < ·)) :
    cleanup_old_backups l N = l.drop (l.length - N) := by
  have hnodup : l.Nodup := h.imp Nat.ne_of_lt
  have hsorted_rev : (l.reverse).Sorted (· ≥ ·) := by
    rw [List.Sorted, List.pairwise_reverse]
    exact h.imp (fun hab => Nat.le_of_lt hab)
  have hperm : List.Perm (l.insertionSort (· ≥ ·)) l.reverse :=
    (List.perm_insertionSort _ l).trans (l.reverse_perm).symm
  have hsorted_is : List.Sorted (· ≥ ·) (l.insertionSort (· ≥ ·)) :=
    List.sorted_insertionSort _ l
  have heq : l.insertionSort (· ≥ ·) = l.reverse :=
    List.eq_of_perm_of_sorted hperm hsorted_is hsorted_rev
  have hdropeq : (l.reverse).drop N = (l.take (l.length - N)).reverse := by
    have hr := List.rdrop_eq_reverse_drop_reverse (l := l) (n := N)
    rw [List.rdrop] at hr
    rw [hr, List.reverse_reverse]
  have hdisj : List.Disjoint (l.take (l.length - N))
      (l.drop (l.length - N)) := by
    apply List.disjoint_of_nodup_append
    rw [List.take_append_drop]
    exact hnodup
  unfold cleanup_old_backups
  rw [heq, hdropeq]
  apply filter_take_drop_split
  · intro x hx
    rw [decide_eq_false_iff_not, Decidable.not_not, List.mem_reverse]
    exact hx
  · intro x hx
    rw [decide_eq_true_eq, List.mem_reverse]
    intro hmem
    exact hdisj hmem hx

/-- One successful write over an existing destination: the old content is
copied into the backups and the backups are then pruned. -/
theorem write_config_ok_backups (config : Config) (t N : Nat) (fs : FS)
    (hdest : fs.dest.isSome = true) :
    (write_config config ioOk t N fs).1 = .ok () ∧
    (write_config config ioOk t N fs).2 =
      { dest := some config, tmp := none,
        backups := cleanup_old_backups (create_backup fs.backups t) N } := by
  simp [write_config, ioOk, hdest]

/-- Through a sequence of successful writes at strictly increasing backup
times, the backup directory is always the newest `N`-bounded suffix of all
backup times taken so far. -/
theorem write_seq_backups_general (config : Config) (N : Nat) :
    ∀ (ts : List Nat) (fs : FS), fs.dest.isSome = true →
      (fs.backups ++ ts).Pairwise (· < ·) →
      fs.backups.length ≤ N →
      (write_seq config N ts fs).backups =
        (fs.backups ++ ts).drop (fs.backups.length + ts.length - N) ∧
      ((write_seq config N ts fs).dest).isSome = true := by
  intro ts
  induction ts with
  | nil =>
    intro fs hdest hpair hlen
    refine ⟨?_, by simpa [write_seq] using hdest⟩
    have h0 : fs.backups.length + ([] : List Nat).length - N = 0 := by
      simp; omega
    rw [h0, List.append_nil, List.drop_zero]
    simp [write_seq]
  | cons t ts ih =>
    intro fs hdest hpair hlen
    have hsplit : fs.backups ++ t :: ts = (fs.backups ++ [t]) ++ ts := by
      simp
    have ht : t ∉ fs.backups := by
      intro hmem
      have hall := (List.pairwise_append.mp hpair).2.2
      exact lt_irrefl t (hall t hmem t (by simp))
    have hcb : create_backup fs.backups t = fs.backups ++ [t] := by
      simp [create_backup, ht]
    have hpairX : (fs.backups ++ [t]).Pairwise (· < ·) := by
      rw [hsplit] at hpair
      exact hpair.sublist (List.sublist_append_left _ _)
    have hclean : cleanup_old_backups (fs.backups ++ [t]) N =
        (fs.backups ++ [t]).drop (fs.backups.length + 1 - N) := by
      rw [cleanup_old_backups_sorted _ _ hpairX]
      simp
    obtain ⟨hok, hfs1⟩ := write_config_ok_backups config t N fs hdest
    have hlen1 : ((fs.backups ++ [t]).drop
        (fs.backups.length + 1 - N)).length ≤ N := by
      rw [List.length_drop, List.length_append]
      simp
      omega
    have hpair1 : (((fs.backups ++ [t]).drop
        (fs.backups.length + 1 - N)) ++ ts).Pairwise (· < ·) := by
      rw [hsplit] at hpair
      exact hpair.sublist
        (List.Sublist.append_right (List.drop_sublist _ _) ts)
    obtain ⟨ih1, ih2⟩ := ih
      { dest := some config, tmp := none,
        backups := (fs.backups ++ [t]).drop (fs.backups.length + 1 - N) }
      rfl hpair1 hlen1
    constructor
    · show (write_seq config N ts
          (write_config config ioOk t N fs).2).backups = _
      rw [hfs1, hcb, hclean]
      rw [ih1]
      have hX : fs.backups.length + 1 - N ≤ (fs.backups ++ [t]).length := by
        rw [List.length_append]
        simp
      rw [← List.drop_append_of_le_length hX, List.drop_drop]
      rw [hsplit]
      congr 1
      rw [List.length_drop, List.length_append]
      simp
      omega
    · show ((write_seq config N ts
          (write_config config ioOk t N fs).2).dest).isSome = true
      rw [hfs1, hcb, hclean]
      exact ih2

/-- C6: every write over an existing file first snapshots it into the
backups and then prunes; after `k` successful writes at strictly increasing
backup times over an existing file starting with no backups, exactly
`min N k` backups remain, and they are the newest ones (the oldest were
pruned first). -/
theorem backup_retention (config c0 : Config) (N : Nat) (ts : List Nat)
    (hts : ts.Pairwise (· < ·)) :
    (∀ (fs : FS) (t : Nat), fs.dest.isSome = true →
        (write_config config ioOk t N fs).2.backups =
          cleanup_old_backups (create_backup fs.backups t) N) ∧
    (write_seq config N ts
        { dest := some c0, tmp := none, backups := [] }).backups =
      ts.drop (ts.length - N) ∧
    (write_seq config N ts
        { dest := some c0, tmp := none, backups := [] }).backups.length =
      min N ts.length := by
  have hpair : ts.Pairwise (· < ·) := hts
  obtain ⟨h1, _⟩ := write_seq_backups_general config N ts
    { dest := some c0, tmp := none, backups := [] } rfl (by simpa) (by simp)
  simp only [List.nil_append, List.length_nil, Nat.zero_add] at h1
  refine ⟨?_, h1, ?_⟩
  · intro fs t hdest
    rw [(write_config_ok_backups config t N fs hdest).2]
  · rw [h1, List.length_drop]
    omega

/-- Witness for C6: six writes with retention five keep exactly the five
newest backups, the oldest pruned. -/
theorem backup_retention_witness :
    ([1, 2, 3, 4, 5, 6] : List Nat).Pairwise (· < ·) ∧
    (write_seq emptyConfig 5 [1, 2, 3, 4, 5, 6]
        { dest := some emptyConfig, tmp := none, backups := [] }).backups =
      [2, 3, 4, 5, 6] ∧
    (write_seq emptyConfig 5 [1, 2, 3, 4, 5, 6]
        { dest := some emptyConfig, tmp := none,
          backups := [] }).backups.length = 5 :=
  ⟨by decide,
    ((backup_retention emptyConfig emptyConfig 5 [1, 2, 3, 4, 5, 6]
        (by decide)).2.1).trans (by decide),
    ((backup_retention emptyConfig emptyConfig 5 [1, 2, 3, 4, 5, 6]
        (by decide)).2.2).trans (by decide)⟩

end Mk8

namespace Mk8

/-- If the check first succeeds at invocation `i` within the time budget
and within fuel, the loop returns right there, without a further sleep. -/
theorem pollLoop_ready (check : Nat → Bool) (timeout : Nat) :
    ∀ (fuel s i : Nat), s ≤ i → i - s < fuel →
      (∀ j, s ≤ j → j < i → check j = false) → check i = true →
      5 * i < timeout →
      pollLoop check timeout fuel s = .ready i := by
  intro fuel
  induction fuel with
  | zero =>
    intro s i h1 h2
    omega
  | succ f ih =>
    intro s i h1 h2 hprev hi hbudget
    have hcond : 5 * s < timeout := by omega
    by_cases hsi : s = i
    · subst hsi
      simp [pollLoop, hcond, hi]
    · have hs : check s = false := hprev s le_rfl (by omega)
      simp only [pollLoop]
      rw [if_pos hcond]
      simp only [hs, Bool.false_eq_true, if_false]
      exact ih (s + 1) i (by omega) (by omega)
        (fun j hj1 hj2 => hprev j (by omega) hj2) hi hbudget

/-- A never-ready check makes the loop exit by timeout, at an elapsed time
of at least `timeout`. -/
theorem pollLoop_never (check : Nat → Bool) (timeout : Nat)
    (hnever : ∀ j, check j = false) :
    ∀ (fuel s : Nat), timeout ≤ 5 * (s + fuel) →
      ∃ i, pollLoop check timeout fuel s = .timedOut i ∧ timeout ≤ 5 * i := by
  intro fuel
  induction fuel with
  | zero =>
    intro s h
    exact ⟨s, rfl, by omega⟩
  | succ f ih =>
    intro s h
    by_cases hcond : 5 * s < timeout
    · have hs := hnever s
      simp only [pollLoop]
      rw [if_pos hcond]
      simp only [hs, Bool.false_eq_true, if_false]
      exact ih (s + 1) (by omega)
    · exact ⟨s, by simp [pollLoop, hcond], by omega⟩

/-- C5 (amended): both pollers return as soon as an invocation reports
ready, with no sleep afterwards; a never-ready check fails with the timeout
error no earlier than `timeout` seconds after the first invocation; the
raised error carries the poller's fixed timeout message, not the check's
last diagnostic. -/
theorem poller_timing (check : Nat → Bool × String)
    (pods : Nat → List Bool) (timeout : Nat) :
    (∀ i, (∀ j, j < i → (check j).1 = false) → (check i).1 = true →
      5 * i < timeout →
      wait_for_ready check timeout = .ready i ∧
      elapsedSeconds (wait_for_ready check timeout) = 5 * i) ∧
    ((∀ i, (check i).1 = false) →
      ∃ i, wait_for_ready check timeout = .timedOut i ∧
        timeout ≤ elapsedSeconds (wait_for_ready check timeout) ∧
        wait_for_ready_result check timeout =
          .error (kindTimeoutMessage timeout)) ∧
    (∀ i, (∀ j, j < i → crossplane_pods_ready (pods j) = false) →
      crossplane_pods_ready (pods i) = true → 5 * i < timeout →
      wait_for_crossplane_ready pods timeout = .ready i ∧
      elapsedSeconds (wait_for_crossplane_ready pods timeout) = 5 * i) ∧
    ((∀ i, crossplane_pods_ready (pods i) = false) →
      ∃ i, wait_for_crossplane_ready pods timeout = .timedOut i ∧
        timeout ≤ elapsedSeconds (wait_for_crossplane_ready pods timeout) ∧
        wait_for_crossplane_ready_result pods timeout =
          .error crossplaneTimeoutMessage) := by
  refine ⟨?_, ?_, ?_, ?_⟩
  · intro i hprev hi hbudget
    have h := pollLoop_ready (fun j => (check j).1) timeout
      (timeout / 5 + 1) 0 i (Nat.zero_le i) (by omega)
      (fun j _ hj => hprev j hj) hi hbudget
    refine ⟨h, ?_⟩
    rw [wait_for_ready, h]
    rfl
  · intro hnever
    obtain ⟨i, h1, h2⟩ := pollLoop_never (fun j => (check j).1) timeout
      hnever (timeout / 5 + 1) 0 (by omega)
    refine ⟨i, h1, ?_, ?_⟩
    · rw [wait_for_ready, h1]
      exact h2
    · rw [wait_for_ready_result, wait_for_ready, h1]
  · intro i hprev hi hbudget
    have h := pollLoop_ready (fun j => crossplane_pods_ready (pods j))
      timeout (timeout / 5 + 1) 0 i (Nat.zero_le i) (by omega)
      (fun j _ hj => hprev j hj) hi hbudget
    refine ⟨h, ?_⟩
    rw [wait_for_crossplane_ready, h]
    rfl
  · intro hnever
    obtain ⟨i, h1, h2⟩ := pollLoop_never
      (fun j => crossplane_pods_ready (pods j)) timeout hnever
      (timeout / 5 + 1) 0 (by omega)
    refine ⟨i, h1, ?_, ?_⟩
    · rw [wait_for_crossplane_ready, h1]
      exact h2
    · rw [wait_for_crossplane_ready_result, wait_for_crossplane_ready, h1]

/-- C5 counterexample: two never-ready checks whose diagnostics differ
(`"2/3 ready"` against `"0/3 ready"`) make the poller raise the identical
fixed error, so the raised error cannot carry the last diagnostic string;
the crossplane poller's error is likewise a fixed string. -/
theorem poller_diagnostic_counterexample :
    wait_for_ready_result (fun _ => (false, "2/3 ready")) 10 =
      wait_for_ready_result (fun _ => (false, "0/3 ready")) 10 ∧
    wait_for_ready_result (fun _ => (false, "2/3 ready")) 10 =
      .error (kindTimeoutMessage 10) ∧
    kindTimeoutMessage 10 =
      "Cluster did not become ready within 10 seconds" ∧
    (("2/3 ready" : String) ≠ "0/3 ready") ∧
    wait_for_crossplane_ready_result (fun _ => [true, false]) 10 =
      .error "Timeout waiting for Crossplane pods to be ready" :=
  ⟨rfl, rfl, by decide, by decide, rfl⟩

/-- Witness for C5 at concrete checks: ready on the third invocation with
budget 20 returns at 10 seconds; a never-ready check with budget 10 times
out at 10 seconds with the fixed message; crossplane analogues. -/
theorem poller_timing_witness :
    (wait_for_ready (fun i => (i == 2, "2/3 ready")) 20 = .ready 2 ∧
      elapsedSeconds (wait_for_ready (fun i => (i == 2, "2/3 ready")) 20) =
        5 * 2) ∧
    (∃ i, wait_for_ready (fun _ => (false, "2/3 ready")) 10 = .timedOut i ∧
      10 ≤ elapsedSeconds (wait_for_ready (fun _ => (false, "2/3 ready")) 10) ∧
      wait_for_ready_result (fun _ => (false, "2/3 ready")) 10 =
        .error (kindTimeoutMessage 10)) ∧
    (wait_for_crossplane_ready
        (fun i => if i == 1 then [true, true] else []) 15 = .ready 1 ∧
      elapsedSeconds (wait_for_crossplane_ready
        (fun i => if i == 1 then [true, true] else []) 15) = 5 * 1) ∧
    (∃ i, wait_for_crossplane_ready (fun _ => []) 10 = .timedOut i ∧
      10 ≤ elapsedSeconds (wait_for_crossplane_ready (fun _ => []) 10) ∧
      wait_for_crossplane_ready_result (fun _ => []) 10 =
        .error crossplaneTimeoutMessage) :=
  ⟨(poller_timing (fun i => (i == 2, "2/3 ready")) (fun _ => []) 20).1 2
      (by decide) (by decide) (by decide),
    (poller_timing (fun _ => (false, "2/3 ready")) (fun _ => []) 10).2.1
      (fun _ => rfl),
    (poller_timing (fun _ => (false, "")) 
        (fun i => if i == 1 then [true, true] else []) 15).2.2.1 1
      (by decide) (by decide) (by decide),
    (poller_timing (fun _ => (false, "")) (fun _ => []) 10).2.2.2
      (fun _ => rfl)⟩

/-- C4 (amended): each teardown runner executes every step in order
regardless of earlier failures (`executed` is the full label sequence for
every environment), never re-raises a step failure (the runs are total
records, not exceptions), and aggregates exactly the failing steps'
labelled messages in step order; `delete_cluster` additionally records in
`cleaned_up` exactly the labels of the steps that succeeded, in order. -/
theorem teardown_isolation (envU : UninstallEnv) (envD : DeleteClusterEnv) :
    (uninstall_crossplane envU).executed =
      ["ProviderConfig deletion", "Provider deletion", "Helm uninstall",
       "Namespace deletion"] ∧
    (uninstall_crossplane envU).errors =
      (match envU.deleteProviderConfig with
        | .ok _ => []
        | .error e => ["ProviderConfig deletion: " ++ e]) ++
      (match envU.deleteProvider with
        | .ok _ => []
        | .error e => ["Provider deletion: " ++ e]) ++
      (match envU.helmUninstall with
        | .ok _ => []
        | .error e => ["Helm uninstall: " ++ e]) ++
      (match envU.deleteNamespace with
        | .ok _ => []
        | .error e => ["Namespace deletion: " ++ e]) ∧
    (delete_cluster_steps envD).executed =
      ["kind cluster", "kubeconfig context"] ∧
    (delete_cluster_steps envD).cleanedUp =
      (match envD.kindDelete with
        | .ok _ => ["kind cluster"]
        | .error _ => []) ++
      (if envD.kubeconfigHasCluster then
        match envD.removeFromKubeconfig with
        | .ok _ => ["kubeconfig context"]
        | .error _ => []
       else []) ∧
    (delete_cluster_steps envD).errors =
      (match envD.kindDelete with
        | .ok _ => []
        | .error e => ["Failed to delete kind cluster: " ++ e]) ++
      (if envD.kubeconfigHasCluster then
        match envD.removeFromKubeconfig with
        | .ok _ => []
        | .error e => ["Failed to clean up kubeconfig: " ++ e]
       else []) := by
  obtain ⟨a, b, c, d⟩ := envU
  obtain ⟨k, hc, r⟩ := envD
  cases a <;> cases b <;> cases c <;> cases d <;> cases k <;> cases hc <;>
    cases r <;> simp [uninstall_crossplane, runStep, delete_cluster_steps]

/-- C4 counterexample: for the run [kind deletion fails, kubeconfig removal
succeeds], the report the code produces has no attempted-step list: its
only label list, `cleaned_up`, omits the failed step's label even though
that step ran, and the failure is one formatted string rather than a
(label, message) pair. -/
theorem teardown_report_counterexample :
    (delete_cluster_steps kindFailEnv).executed =
      ["kind cluster", "kubeconfig context"] ∧
    (delete_cluster_steps kindFailEnv).cleanedUp =
      ["kubeconfig context"] ∧
    ¬ ("kind cluster" ∈ (delete_cluster_steps kindFailEnv).cleanedUp) ∧
    (delete_cluster_steps kindFailEnv).errors =
      ["Failed to delete kind cluster: network error"] :=
  ⟨rfl, rfl, by decide, rfl⟩

end Mk8

namespace Mk8

/-- C6 counterexample: two successful writes within the same second produce
backups with the same second-resolution filename; the second copy
overwrites the first, so after `k = 2` writes with retention `N = 5` one
backup remains, not `min(5, 2) = 2`. -/
theorem backup_retention_counterexample :
    (write_seq emptyConfig 5 [3, 3]
        { dest := some emptyConfig, tmp := none, backups := [] }).backups =
      [3] ∧
    (write_seq emptyConfig 5 [3, 3]
        { dest := some emptyConfig, tmp := none,
          backups := [] }).backups.length = 1 ∧
    min 5 2 = 2 ∧ (1 : Nat) ≠ 2 := by
  decide

/-- Witness for C8: the two collision scenarios concretely. -/
theorem resolve_naming_conflict_spec_witness :
    ((add_cluster { emptyConfig with
          clusters := [{ name := "demo", cluster := [] }] }
        none "demo" [] false).config.clusters.map (fun c => c.name))
      = ["demo", "demo-2"] ∧
    ((add_cluster (add_cluster { emptyConfig with
            clusters := [{ name := "demo", cluster := [] }] }
          none "demo" [] false).config
        none "demo" [] false).config.clusters.map (fun c => c.name))
      = ["demo", "demo-2", "demo-3"] :=
  ⟨resolve_naming_conflict_spec.2.1, resolve_naming_conflict_spec.2.2⟩

end Mk8
